import Mathlib

/-!
Shallow embedding of the two service modules of the chat-bot integration
layer: the response generator (services/geminiService.ts) and the backend
connector (services/imvuService.ts).  Effectful TypeScript is modelled by
passing the outcome of each external interaction explicitly (the LLM
completion call, each HTTP fetch round trip, the random draw for the mock
branch) and by recording the effects an operation emits (HTTP requests, log
lines, callback invocations, scheduled timers) alongside its return value.
-/

/-- Modelled from the spec: PersonalityConfig from the data model (the shared
types module is not among the sources): named traits with numeric levels
0 to 100 plus descriptor strings. -/
structure AIPersonality where
  style : String
  humor : Nat
  aggressiveness : Nat
  creativity : Nat
  behavior : String
  mode : String
  language : String
  deriving DecidableEq

/-- Modelled from the spec: ConversationMessage = author display name, author
identifier, text. -/
structure Message where
  author : String
  authorId : String
  text : String
  deriving DecidableEq

/-- Modelled from the spec: the provider selector (LLM-backed vs mock). -/
inductive AIProvider where
  | gemini
  | gpt
  deriving DecidableEq

namespace GeminiService

/-- Modelled from the spec: BotIdentity = identifier, display name,
personality configuration, selected provider. -/
structure Bot where
  id : String
  name : String
  personality : AIPersonality
  aiProvider : AIProvider
  deriving DecidableEq

/-- The fixed filler phrases of geminiService.ts (mockResponses). -/
def mockResponses : List String :=
  ["lol that\x27s funny", "idk", "cool", "what do you mean?", "nice outfit!"]

/-- slice(-10) on the history array: the last ten entries, or all of them
when the history is shorter. -/
def sliceLast10 (history : List Message) : List Message :=
  history.drop (history.length - 10)

/-- The part of the prompt template of generatePrompt that precedes the
interpolated history text. -/
def promptPrefix (personality : AIPersonality) (botName : String) : String :=
  "\nYou are an IMVU chat bot named " ++ botName ++
  ". Your personality is strictly defined by these traits:\n- Style: " ++
  personality.style ++
  "\n- Humor Level (0-100): " ++ toString personality.humor ++
  "\n- Aggressiveness (0-100): " ++ toString personality.aggressiveness ++
  "\n- Creativity (0-100): " ++ toString personality.creativity ++
  "\n- Behavior: " ++ personality.behavior ++
  "\n- Mode: " ++ personality.mode ++
  "\n- Language: " ++ personality.language ++
  "\n\nBased on this personality, you must continue the following conversation.\nYour response should be a single, short chat message. Do not use your name in the response.\n\nConversation History:\n"

/-- The part of the prompt template of generatePrompt that follows the
interpolated history text. -/
def promptSuffix (botName : String) : String :=
  "\n\n" ++ botName ++ ":"

/-- generatePrompt from geminiService.ts: renders the last ten history
entries as author-colon-text lines joined by newlines and splices them into
the fixed personality template. -/
def generatePrompt (personality : AIPersonality) (history : List Message)
    (botName : String) : String :=
  let historyText :=
    String.intercalate "\n" ((sliceLast10 history).map (fun msg => msg.author ++ ": " ++ msg.text))
  promptPrefix personality botName ++ historyText ++ promptSuffix botName

/-- generateBotResponse from geminiService.ts.  The random draw of the mock
branch is the explicit randIdx argument (Math.floor of Math.random times the
list length always lands inside the list), and the external completion call
is the explicit llmCall argument, where Except.error means the call threw.
The mock branch fires when the provider is the non-LLM choice or no API key
is configured (the ai client is null exactly when the key is empty). -/
def generateBotResponse (apiKey : String) (personality : AIPersonality)
    (history : List Message) (botName : String) (provider : AIProvider)
    (randIdx : Fin mockResponses.length)
    (llmCall : String → Except String String) : String :=
  if provider = AIProvider.gpt ∨ apiKey = "" then
    mockResponses.get randIdx
  else
    match llmCall (generatePrompt personality history botName) with
    | Except.error _ => "I\x27m not sure what to say."
    | Except.ok responseText =>
        let text := responseText.trim
        let firstLine := (text.splitOn "\n").headD ""
        if firstLine = "" then mockResponses.headD "" else firstLine

/-- summarizeRoom from geminiService.ts (the artificial delay carries no
information and is dropped). -/
def summarizeRoom (history : List Message) : String :=
  match history.getLast? with
  | none => "The room is quiet."
  | some lastMessage =>
      "The last message was from " ++ lastMessage.author ++ ": \"" ++
      lastMessage.text ++ "\". The conversation seems casual."

/-- Result record of coordinateDialogue. -/
structure DialogueResult where
  botToSpeak : String
  message : String
  deriving DecidableEq

/-- coordinateDialogue from geminiService.ts: the last speaker defaults to
botB on empty history, the other bot speaks next, and its message is
delegated to generateBotResponse. -/
def coordinateDialogue (apiKey : String) (botA botB : Bot)
    (history : List Message) (randIdx : Fin mockResponses.length)
    (llmCall : String → Except String String) : DialogueResult :=
  let lastSpeakerId :=
    match history.getLast? with
    | some m => m.authorId
    | none => botB.id
  let speaker := if lastSpeakerId = botB.id then botA else botB
  { botToSpeak := speaker.id
    message := generateBotResponse apiKey speaker.personality history
      speaker.name speaker.aiProvider randIdx llmCall }

/-- A sample personality used by concrete witnesses. -/
def samplePersonality : AIPersonality :=
  { style := "casual", humor := 50, aggressiveness := 10, creativity := 60
    behavior := "friendly", mode := "auto", language := "en" }

end GeminiService

namespace ImvuService

/-- Modelled from the spec: the user payload carried by a user-joined event
(the shared types module is not among the sources). -/
structure RoomUser where
  id : String
  name : String
  deriving DecidableEq

/-- One fetch round trip as the client observes it: either the promise chain
threw (network error, or JSON parsing where the operation parses a body) or
a response arrived with its HTTP ok flag and parsed body. -/
inductive FetchOutcome (β : Type) where
  | thrown (message : String)
  | reply (ok : Bool) (body : β)
  deriving DecidableEq

/-- Parsed body of POST /login. -/
structure LoginBody where
  success : Bool
  error : Option String
  deriving DecidableEq

/-- A room entry as returned by the rooms search endpoint. -/
structure Room where
  id : String
  name : String
  deriving DecidableEq

/-- Parsed body of GET /bots/id/rooms/search. -/
structure RoomsBody where
  success : Bool
  error : Option String
  rooms : List Room
  deriving DecidableEq

/-- Parsed body of POST /bots/id/rooms/join. -/
structure JoinBody where
  success : Bool
  error : Option String
  roomId : String
  deriving DecidableEq

/-- The HTTP requests the connector can issue, one per backend endpoint. -/
inductive Request where
  | login (username password : String)
  | logout (botId : String)
  | roomsSearch (botId : String)
  | roomsJoin (botId room : String)
  | roomLeave (botId roomId : String)
  | roomSend (botId roomId message : String)
  deriving DecidableEq

/-- Effects an outbound operation emits, in order: HTTP requests and lines
passed to the log method (which stamps them and forwards them to the log
callback slot). -/
inductive Effect where
  | request (r : Request)
  | log (s : String)
  deriving DecidableEq

/-- Whether an effect is an HTTP request (a network call). -/
def Effect.isRequest : Effect → Bool
  | .request _ => true
  | .log _ => false

/-- The error-or-unknown fallback: data.error or the fixed string, where a
present-but-empty error string is falsy in the source and also falls back. -/
def orUnknown : Option String → String
  | some e => if e = "" then "Unknown error" else e
  | none => "Unknown error"

/-- A fetch outcome on which the operation takes its failure path: the call
threw, or the response arrived with ok false or an unsuccessful body. -/
def failedOut {β : Type} (succ : β → Bool) : FetchOutcome β → Prop
  | .thrown _ => True
  | .reply ok body => ok = false ∨ succ body = false

/-- login from imvuService.ts.  The password is optional; an absent or empty
password is falsy and short-circuits before any network call. -/
def login (net : FetchOutcome LoginBody) (botId username : String)
    (password : Option String) : Bool × List Effect :=
  match password with
  | none => (false, [Effect.log ("[" ++ username ++ "] Login failed: Password is required.")])
  | some p =>
    if p = "" then
      (false, [Effect.log ("[" ++ username ++ "] Login failed: Password is required.")])
    else
      let attemptLog := Effect.log ("[" ++ username ++ "] Attempting to login via backend...")
      let req := Effect.request (Request.login username p)
      match net with
      | .thrown msg =>
          (false, [attemptLog, req,
            Effect.log ("[" ++ username ++ "] Login failed: " ++ msg ++ ". Is the backend running?")])
      | .reply ok body =>
          if ok = false ∨ body.success = false then
            (false, [attemptLog, req,
              Effect.log ("[" ++ username ++ "] Login failed: " ++ orUnknown body.error)])
          else
            (true, [attemptLog, req, Effect.log ("[" ++ username ++ "] Successfully logged in!")])

/-- logout from imvuService.ts: fire and forget, the response body is never
inspected; a thrown fetch is logged and swallowed. -/
def logout (net : FetchOutcome Unit) (botId : String) : Unit × List Effect :=
  let req := Effect.request (Request.logout botId)
  match net with
  | .thrown msg => ((), [req, Effect.log ("[" ++ botId ++ "] Logout failed: " ++ msg)])
  | .reply _ _ => ((), [req, Effect.log ("[" ++ botId ++ "] Logged out")])

/-- getRooms from imvuService.ts. -/
def getRooms (net : FetchOutcome RoomsBody) (botId : String) :
    List Room × List Effect :=
  let fetchLog := Effect.log ("[" ++ botId ++ "] Fetching public rooms...")
  let req := Effect.request (Request.roomsSearch botId)
  match net with
  | .thrown msg =>
      ([], [fetchLog, req, Effect.log ("[" ++ botId ++ "] Failed to fetch rooms: " ++ msg)])
  | .reply ok body =>
      if ok = false ∨ body.success = false then
        ([], [fetchLog, req,
          Effect.log ("[" ++ botId ++ "] Failed to fetch rooms: " ++ orUnknown body.error)])
      else
        (body.rooms.map (fun r => Room.mk r.id r.name), [fetchLog, req])

/-- joinRoom from imvuService.ts. -/
def joinRoom (net : FetchOutcome JoinBody) (botId roomName : String) :
    Option String × List Effect :=
  let joinLog := Effect.log ("[" ++ botId ++ "] Joining room: " ++ roomName ++ "...")
  let req := Effect.request (Request.roomsJoin botId roomName)
  match net with
  | .thrown msg =>
      (none, [joinLog, req, Effect.log ("[" ++ botId ++ "] Failed to join room: " ++ msg)])
  | .reply ok body =>
      if ok = false ∨ body.success = false then
        (none, [joinLog, req,
          Effect.log ("[" ++ botId ++ "] Failed to join room: " ++ orUnknown body.error)])
      else
        (some body.roomId, [joinLog, req])

/-- leaveRoom from imvuService.ts: fire and forget like logout. -/
def leaveRoom (net : FetchOutcome Unit) (botId roomId : String) :
    Unit × List Effect :=
  let req := Effect.request (Request.roomLeave botId roomId)
  match net with
  | .thrown msg =>
      ((), [req, Effect.log ("[" ++ botId ++ "] Failed to leave room: " ++ msg)])
  | .reply _ _ => ((), [req, Effect.log ("[" ++ botId ++ "] Left room " ++ roomId)])

/-- sendMessage from imvuService.ts: fire and forget, no success log. -/
def sendMessage (net : FetchOutcome Unit) (botId roomId text : String) :
    Unit × List Effect :=
  let req := Effect.request (Request.roomSend botId roomId text)
  match net with
  | .thrown msg =>
      ((), [req, Effect.log ("[" ++ botId ++ "] Failed to send message: " ++ msg)])
  | .reply _ _ => ((), [req])

/-- The payload carried under data.data of an inbound frame, typed per the
protocol of the spec; ofOther stands for any other well-formed JSON value,
as carried by frames with unknown type tags. -/
inductive Payload where
  | ofMessage (m : Message)
  | ofJoin (roomId : String) (user : RoomUser)
  | ofLeave (roomId userId username : String)
  | ofLog (s : String)
  | ofOther
  deriving DecidableEq

/-- A parsed inbound JSON frame: its type tag and its data payload. -/
structure Frame where
  type : String
  data : Payload
  deriving DecidableEq

/-- The connector state: the four callback slots (an abstract identity per
registered callback, none when empty) and the channel handle flag. -/
structure Connector where
  messageCallback : Option Nat
  logCallback : Option Nat
  userJoinedCallback : Option Nat
  userLeftCallback : Option Nat
  wsConnected : Bool
  deriving DecidableEq

/-- A callback invocation the dispatcher performs, recording which slot
fired and with which arguments. -/
inductive Invocation where
  | message (slot : Nat) (m : Message)
  | userJoined (slot : Nat) (roomId : String) (user : RoomUser)
  | userLeft (slot : Nat) (roomId userId username : String)
  | logLine (slot : Nat) (s : String)
  deriving DecidableEq

/-- The private log method: stamps the message and invokes the log slot if
one is registered (the optional-chaining call). -/
def fireLog (c : Connector) (ts s : String) : List Invocation :=
  match c.logCallback with
  | some slot => [Invocation.logLine slot ("[" ++ ts ++ "] " ++ s)]
  | none => []

/-- The onmessage handler of connectWebSocket: dispatches a parsed frame on
its type tag to the matching callback slot; an unknown tag falls through the
switch and does nothing. -/
def handleFrame (ts : String) (c : Connector) (f : Frame) :
    Connector × List Invocation :=
  if f.type = "message" then
    (c, match f.data, c.messageCallback with
        | Payload.ofMessage m, some slot => [Invocation.message slot m]
        | _, _ => [])
  else if f.type = "user_joined" then
    (c, match f.data, c.userJoinedCallback with
        | Payload.ofJoin roomId user, some slot => [Invocation.userJoined slot roomId user]
        | _, _ => [])
  else if f.type = "user_left" then
    (c, match f.data, c.userLeftCallback with
        | Payload.ofLeave roomId userId username, some slot =>
            [Invocation.userLeft slot roomId userId username]
        | _, _ => [])
  else if f.type = "log" then
    (c, match f.data with
        | Payload.ofLog s => fireLog c ts s
        | _ => [])
  else (c, [])

/-- A timer the connector schedules: the reconnect attempt with its delay in
milliseconds. -/
inductive ScheduledTask where
  | reconnect (delayMs : Nat)
  deriving DecidableEq

/-- The lifecycle events the channel delivers to the registered handlers. -/
inductive WsEvent where
  | opened
  | message (f : Frame)
  | errored
  | closed
  deriving DecidableEq

/-- Whether a channel event is a close event. -/
def WsEvent.isClose : WsEvent → Bool
  | .closed => true
  | _ => false

/-- One channel event as handled by the handlers connectWebSocket installs:
the close handler logs and schedules exactly the one reconnect timer with
the fixed 3000 ms delay; no other handler schedules anything. -/
def stepEvent (ts : String) (c : Connector) :
    WsEvent → Connector × List Invocation × List ScheduledTask
  | .opened => (c, fireLog c ts "[WebSocket] Connected to backend server", [])
  | .message f =>
      let r := handleFrame ts c f
      (r.1, r.2, [])
  | .errored => (c, fireLog c ts "[WebSocket] Error connecting to backend", [])
  | .closed =>
      (c, fireLog c ts "[WebSocket] Disconnected from backend. Reconnecting in 3s...",
        [ScheduledTask.reconnect 3000])

/-- A run of the connector over a sequence of channel events, accumulating
every scheduled reconnect timer. -/
def runEvents (ts : String) (c : Connector) :
    List WsEvent → Connector × List ScheduledTask
  | [] => (c, [])
  | e :: es =>
      let r := stepEvent ts c e
      let rest := runEvents ts r.1 es
      (rest.1, r.2.2 ++ rest.2)

/-- Callback registration, last write wins: onMessage. -/
def onMessage (c : Connector) (slot : Nat) : Connector :=
  { c with messageCallback := some slot }

/-- Callback registration, last write wins: onLog. -/
def onLog (c : Connector) (slot : Nat) : Connector :=
  { c with logCallback := some slot }

/-- Callback registration, last write wins: onUserJoined. -/
def onUserJoined (c : Connector) (slot : Nat) : Connector :=
  { c with userJoinedCallback := some slot }

/-- Callback registration, last write wins: onUserLeft. -/
def onUserLeft (c : Connector) (slot : Nat) : Connector :=
  { c with userLeftCallback := some slot }

end ImvuService

namespace GeminiService

/-- Claim C2 counterexample: on empty history the source defaults the last
speaker to botB and then picks the other bot, so the result names botA, not
botB, for a concrete pair of bots with distinct identifiers. -/
theorem coordinateDialogue_empty_not_botB :
    (coordinateDialogue "" (Bot.mk "bot-a" "Alice" samplePersonality AIProvider.gpt)
        (Bot.mk "bot-b" "Bella" samplePersonality AIProvider.gpt) []
        ⟨0, by decide⟩ (fun _ => Except.ok "")).botToSpeak
      ≠ (Bot.mk "bot-b" "Bella" samplePersonality AIProvider.gpt).id := by
  decide

/-- Claim C2 (amended): for every pair of bots, coordinateDialogue with an
empty history selects botA as the bot to speak (the defaulted last speaker
is botB, and the other bot is chosen). -/
theorem coordinateDialogue_empty_picks_botA (apiKey : String) (botA botB : Bot)
    (randIdx : Fin mockResponses.length)
    (llmCall : String → Except String String) :
    (coordinateDialogue apiKey botA botB [] randIdx llmCall).botToSpeak = botA.id := by
  simp [coordinateDialogue]

/-- The last-ten slice is a fixed point of itself. -/
theorem sliceLast10_idem (history : List Message) :
    sliceLast10 (sliceLast10 history) = sliceLast10 history := by
  unfold sliceLast10
  rw [List.length_drop]
  have h : history.length - (history.length - 10) - 10 = 0 := by omega
  rw [h, List.drop_zero]

/-- Claim C3: the prompt depends only on the last min(10, length) history
entries (entries before them do not appear), that slice has length
min(10, length), and the prompt embeds exactly its entries rendered as
author-colon-text lines joined in chronological order. -/
theorem generatePrompt_last_ten (personality : AIPersonality)
    (history : List Message) (botName : String) :
    generatePrompt personality history botName
      = generatePrompt personality (sliceLast10 history) botName ∧
    (sliceLast10 history).length = min 10 history.length ∧
    ∃ pre post, generatePrompt personality history botName
      = pre ++ String.intercalate "\n"
          ((sliceLast10 history).map (fun msg => msg.author ++ ": " ++ msg.text)) ++ post := by
  refine ⟨?_, ?_, promptPrefix personality botName, promptSuffix botName, rfl⟩
  · unfold generatePrompt
    rw [sliceLast10_idem]
  · unfold sliceLast10
    rw [List.length_drop]
    omega

/-- Claim C4: on the mock path (non-LLM provider, or no API key configured)
the result is one of the five fixed filler phrases, for every personality,
history and bot name; the function is total, so nothing is thrown. -/
theorem generateBotResponse_mock_filler (apiKey : String)
    (personality : AIPersonality) (history : List Message) (botName : String)
    (provider : AIProvider) (randIdx : Fin mockResponses.length)
    (llmCall : String → Except String String)
    (hmock : provider = AIProvider.gpt ∨ apiKey = "") :
    generateBotResponse apiKey personality history botName provider randIdx llmCall
      ∈ ["lol that\x27s funny", "idk", "cool", "what do you mean?", "nice outfit!"] := by
  unfold generateBotResponse
  rw [if_pos hmock]
  exact List.get_mem mockResponses randIdx.1 randIdx.2

/-- Claim C4 witness: a concrete mock-path run lands in the filler set. -/
theorem generateBotResponse_mock_filler_witness :
    generateBotResponse "" samplePersonality [] "Bo" AIProvider.gpt
        ⟨2, by decide⟩ (fun _ => Except.ok "x")
      ∈ ["lol that\x27s funny", "idk", "cool", "what do you mean?", "nice outfit!"] :=
  generateBotResponse_mock_filler _ _ _ _ _ _ _ (Or.inr rfl)

/-- Claim C5: on the LLM path, whenever the external completion call throws,
the error is caught and the fixed apology string is returned. -/
theorem generateBotResponse_llm_error_apology (apiKey : String)
    (personality : AIPersonality) (history : List Message) (botName : String)
    (provider : AIProvider) (randIdx : Fin mockResponses.length)
    (llmCall : String → Except String String) (errMsg : String)
    (hllm : ¬ (provider = AIProvider.gpt ∨ apiKey = ""))
    (herr : llmCall (generatePrompt personality history botName) = Except.error errMsg) :
    generateBotResponse apiKey personality history botName provider randIdx llmCall
      = "I\x27m not sure what to say." := by
  unfold generateBotResponse
  rw [if_neg hllm, herr]

/-- Claim C5 witness: a concrete LLM-path run whose call throws returns the
apology string. -/
theorem generateBotResponse_llm_error_apology_witness :
    generateBotResponse "key" samplePersonality [] "Bo" AIProvider.gemini
        ⟨0, by decide⟩ (fun _ => Except.error "network down")
      = "I\x27m not sure what to say." :=
  generateBotResponse_llm_error_apology "key" samplePersonality [] "Bo"
    AIProvider.gemini ⟨0, by decide⟩ (fun _ => Except.error "network down")
    "network down" (by decide) rfl

/-- Claim C7: summarizeRoom returns the exact quiet-room string on an empty
history, and on every non-empty history a sentence naming the author of the
last entry and quoting its text. -/
theorem summarizeRoom_spec (history : List Message) :
    (history = [] → summarizeRoom history = "The room is quiet.") ∧
    (∀ initial lastMessage, history = initial ++ [lastMessage] →
      summarizeRoom history
        = "The last message was from " ++ lastMessage.author ++ ": \"" ++
          lastMessage.text ++ "\". The conversation seems casual.") := by
  constructor
  · intro h
    subst h
    rfl
  · intro initial lastMessage h
    subst h
    unfold summarizeRoom
    rw [List.getLast?_concat]

/-- Claim C7 witness: the empty history and a concrete one-entry history. -/
theorem summarizeRoom_spec_witness :
    summarizeRoom [] = "The room is quiet." ∧
    summarizeRoom [Message.mk "Bob" "bob-id" "hi"]
      = "The last message was from Bob: \"hi\". The conversation seems casual." :=
  ⟨(summarizeRoom_spec []).1 rfl,
   (summarizeRoom_spec [Message.mk "Bob" "bob-id" "hi"]).2 []
     (Message.mk "Bob" "bob-id" "hi") rfl⟩

/-- Claim C10: on the mock path the result is independent of the
personality, history and bot name (and of the LLM call): two runs with the
same random draw agree for arbitrary different values of those arguments. -/
theorem generateBotResponse_mock_independent (apiKey1 apiKey2 : String)
    (personality1 personality2 : AIPersonality)
    (history1 history2 : List Message) (botName1 botName2 : String)
    (provider1 provider2 : AIProvider) (randIdx : Fin mockResponses.length)
    (llmCall1 llmCall2 : String → Except String String)
    (hmock1 : provider1 = AIProvider.gpt ∨ apiKey1 = "")
    (hmock2 : provider2 = AIProvider.gpt ∨ apiKey2 = "") :
    generateBotResponse apiKey1 personality1 history1 botName1 provider1 randIdx llmCall1
      = generateBotResponse apiKey2 personality2 history2 botName2 provider2 randIdx llmCall2 := by
  unfold generateBotResponse
  rw [if_pos hmock1, if_pos hmock2]

/-- Claim C10 witness: two concrete mock-path runs with the same random draw
but different personality, history, bot name and even provider and call
agree. -/
theorem generateBotResponse_mock_independent_witness :
    generateBotResponse "" samplePersonality [] "Alice" AIProvider.gemini
        ⟨1, by decide⟩ (fun _ => Except.ok "x")
      = generateBotResponse "some-key"
        (AIPersonality.mk "formal" 0 100 0 "hostile" "manual" "pt")
        [Message.mk "Bob" "bob-id" "hey"] "Bella" AIProvider.gpt
        ⟨1, by decide⟩ (fun _ => Except.error "down") :=
  generateBotResponse_mock_independent _ _ _ _ _ _ _ _ _ _ _ _ _
    (Or.inr rfl) (Or.inl rfl)

end GeminiService

namespace ImvuService

/-- Claim C1: whenever the fetch throws or the backend answers without
success, every outbound operation returns its documented failure value
(false for login, empty list for getRooms, none for joinRoom, unit for the
fire-and-forget operations); each operation is a total function, so no
exception reaches the caller. -/
theorem outbound_ops_fail_safe (lnet : FetchOutcome LoginBody)
    (gnet : FetchOutcome RoomsBody) (jnet : FetchOutcome JoinBody)
    (onet vnet snet : FetchOutcome Unit)
    (botId username password roomName roomId text : String)
    (hl : failedOut LoginBody.success lnet)
    (hg : failedOut RoomsBody.success gnet)
    (hj : failedOut JoinBody.success jnet) :
    (login lnet botId username (some password)).1 = false ∧
    (getRooms gnet botId).1 = [] ∧
    (joinRoom jnet botId roomName).1 = none ∧
    (logout onet botId).1 = () ∧
    (leaveRoom vnet botId roomId).1 = () ∧
    (sendMessage snet botId roomId text).1 = () := by
  refine ⟨?_, ?_, ?_, rfl, rfl, rfl⟩
  · by_cases hp : password = ""
    · simp [login, hp]
    · cases lnet with
      | thrown msg => simp [login, hp]
      | reply ok body =>
          have hfail : ok = false ∨ body.success = false := hl
          simp [login, hp, if_pos hfail]
  · cases gnet with
    | thrown msg => simp [getRooms]
    | reply ok body =>
        have hfail : ok = false ∨ body.success = false := hg
        simp [getRooms, if_pos hfail]
  · cases jnet with
    | thrown msg => simp [joinRoom]
    | reply ok body =>
        have hfail : ok = false ∨ body.success = false := hj
        simp [joinRoom, if_pos hfail]

/-- Claim C1 witness: concrete failing outcomes (a thrown login fetch, a
non-success rooms response, a non-ok join response) yield the documented
failure values. -/
theorem outbound_ops_fail_safe_witness :
    (login (FetchOutcome.thrown "fetch failed") "b1" "alice" (some "pw")).1 = false ∧
    (getRooms (FetchOutcome.reply true (RoomsBody.mk false (some "denied") [])) "b1").1 = [] ∧
    (joinRoom (FetchOutcome.reply false (JoinBody.mk true none "r9")) "b1" "lobby").1 = none ∧
    (logout (FetchOutcome.thrown "fetch failed") "b1").1 = () ∧
    (leaveRoom (FetchOutcome.thrown "fetch failed") "b1" "r1").1 = () ∧
    (sendMessage (FetchOutcome.thrown "fetch failed") "b1" "r1" "hi").1 = () :=
  outbound_ops_fail_safe (FetchOutcome.thrown "fetch failed")
    (FetchOutcome.reply true (RoomsBody.mk false (some "denied") []))
    (FetchOutcome.reply false (JoinBody.mk true none "r9"))
    (FetchOutcome.thrown "fetch failed") (FetchOutcome.thrown "fetch failed")
    (FetchOutcome.thrown "fetch failed") "b1" "alice" "pw" "lobby" "r1" "hi"
    trivial (Or.inr rfl) (Or.inl rfl)

/-- Claim C6: login with an absent or empty password returns false and emits
no HTTP request, whatever the backend would have answered. -/
theorem login_empty_password_no_network (net : FetchOutcome LoginBody)
    (botId username : String) (password : Option String)
    (hpw : password = none ∨ password = some "") :
    (login net botId username password).1 = false ∧
    ∀ e ∈ (login net botId username password).2, e.isRequest = false := by
  rcases hpw with h | h <;> subst h <;> simp [login, Effect.isRequest]

/-- Claim C6 witness: a concrete login with password none returns false with
no request effect even against a live backend outcome. -/
theorem login_empty_password_no_network_witness :
    (login (FetchOutcome.reply true (LoginBody.mk true none)) "b1" "alice" none).1 = false ∧
    ∀ e ∈ (login (FetchOutcome.reply true (LoginBody.mk true none)) "b1" "alice" none).2,
      e.isRequest = false :=
  login_empty_password_no_network (FetchOutcome.reply true (LoginBody.mk true none))
    "b1" "alice" none (Or.inl rfl)

/-- Claim C8: over any sequence of channel events from any connector state,
the number of scheduled reconnect timers equals the number of close events
(exactly one per close, none from any other event, with no retry cap or
state condition), and every scheduled timer is the reconnect with the fixed
3000 ms delay. -/
theorem reconnect_once_per_close (ts : String) (c : Connector)
    (events : List WsEvent) :
    ((runEvents ts c events).2).length = events.countP WsEvent.isClose ∧
    ∀ t ∈ (runEvents ts c events).2, t = ScheduledTask.reconnect 3000 := by
  induction events generalizing c with
  | nil => simp [runEvents]
  | cons e es ih =>
      cases e with
      | opened =>
          simpa [runEvents, stepEvent, WsEvent.isClose, List.countP_cons] using ih c
      | message f =>
          simpa [runEvents, stepEvent, WsEvent.isClose, List.countP_cons]
            using ih (handleFrame ts c f).1
      | errored =>
          simpa [runEvents, stepEvent, WsEvent.isClose, List.countP_cons] using ih c
      | closed =>
          have h := ih c
          refine ⟨?_, ?_⟩
          · simp [runEvents, stepEvent, WsEvent.isClose, List.countP_cons, h.1]
          · intro t ht
            simp only [runEvents, stepEvent, List.mem_cons, List.mem_append,
              List.not_mem_nil, or_false] at ht
            rcases ht with h1 | h2
            · exact h1
            · exact h.2 t (by simpa [runEvents] using h2)

/-- Claim C9: a well-formed frame whose type tag is none of the four known
tags invokes no callback and leaves the connector state (all four callback
slots and the channel handle) unchanged; the dispatcher is total, so
nothing is raised. -/
theorem handleFrame_unknown_tag_noop (ts : String) (c : Connector) (f : Frame)
    (h : f.type ∉ (["message", "user_joined", "user_left", "log"] : List String)) :
    handleFrame ts c f = (c, []) := by
  simp only [List.mem_cons, List.not_mem_nil, or_false, not_or] at h
  obtain ⟨h1, h2, h3, h4⟩ := h
  unfold handleFrame
  rw [if_neg h1, if_neg h2, if_neg h3, if_neg h4]

/-- Claim C9 witness: a frame tagged ping dispatched against a connector
with every slot registered fires nothing and changes nothing. -/
theorem handleFrame_unknown_tag_noop_witness :
    handleFrame "12:00:00"
        (Connector.mk (some 1) (some 2) (some 3) (some 4) true)
        (Frame.mk "ping" Payload.ofOther)
      = (Connector.mk (some 1) (some 2) (some 3) (some 4) true, []) :=
  handleFrame_unknown_tag_noop "12:00:00"
    (Connector.mk (some 1) (some 2) (some 3) (some 4) true)
    (Frame.mk "ping" Payload.ofOther) (by decide)

end ImvuService
